import Mathlib

/-!
Verification of the discrete-time Markov cost-effectiveness model in
`MarkovModelClasses.py` (guarded variant, with an explicit post-death
update guard and an `ifDevelopedAIDS` flag) and
`EconEvalMarkovModelClasses.py` (unguarded variant, with a complete
cost/utility accumulator).

Python floats are modelled as rationals (`ℚ`); time steps are naturals;
`None`-able fields are `Option`s.  Stateful classes become structures with
explicit state-passing update functions.
-/

/-- Modelled from the spec: the health-state enumeration (`HealthStates` in
`ParameterClasses.py` / `EconEvalInputData.py`, neither of which is under
`src/`).  Spec §3 and §8: a finite set of named states with integer values,
here the three-state scenario Well = 0, AIDS = 1, HIV death = 2, with
HIV_DEATH the unique absorbing death state. -/
inductive HealthStates where
  | WELL
  | AIDS
  | HIV_DEATH
  deriving DecidableEq, Repr

/-- The integer value of a health state (the `.value` of the Python enum). -/
def HealthStates.value : HealthStates → ℕ
  | .WELL => 0
  | .AIDS => 1
  | .HIV_DEATH => 2

/-- Modelled from the spec: conversion from a sampled integer index back to a
health state (`P.HealthStates(new_state_index)` / `HealthStates(new_state_index)`
in the simulate loops).  Indices 0, 1, 2 map to the three states; under the
configuration invariants of spec §3/§7 no other index is ever sampled, so the
catch-all branch is never reached in a valid run. -/
def HealthStates.ofValue : ℕ → HealthStates
  | 0 => .WELL
  | 1 => .AIDS
  | _ => .HIV_DEATH

/-- Modelled from the spec: the immutable `Parameters` object (spec §3):
initial health state, transition matrix, per-state annual cost and utility
tables, annual treatment cost, annual discount rate.  Lists are indexed by
`HealthStates.value`, as in the Python sources. -/
structure Parameters where
  initialHealthState : HealthStates
  probMatrix : List (List ℚ)
  annualStateCosts : List ℚ
  annualStateUtilities : List ℚ
  annualTreatmentCost : ℚ
  discountRate : ℚ
  deriving Repr

/-- Modelled from the spec: the external present-value primitive
(`econ.pv_single_payment` / `Econ`), spec §4.3 and §9:
`PV = payment / (1 + rate)^period`. -/
def pv_single_payment (payment : ℚ) (discount_rate : ℚ) (discount_period : ℕ) : ℚ :=
  payment / (1 + discount_rate) ^ discount_period

/-- Modelled from the spec: the external transition sampler
(`RVGs.Empirical.sample` / `MarkovJumpProcess.get_next_state`), spec §4.1:
build the cumulative distribution of the row and return the first index whose
cumulative value exceeds a draw `u` from Uniform(0,1).  If `u` is at least the
total mass the result is the length of the row (out of range, never reached
for `u < 1` and a row summing to 1). -/
def firstExceeding : List ℚ → ℚ → ℕ
  | [], _ => 0
  | p :: rest, u => if u < p then 0 else (firstExceeding rest (u - p)) + 1

namespace EE
/-! ## `EconEvalMarkovModelClasses.py` — the unguarded variant -/

/-- Class `PatientCostUtilityMonitor` of `EconEvalMarkovModelClasses.py`: running
totals of discounted cost and discounted utility, both initialised to 0. -/
structure PatientCostUtilityMonitor where
  totalDiscountedCost : ℚ
  totalDiscountedUtility : ℚ
  deriving DecidableEq, Repr

/-- Constructor `PatientCostUtilityMonitor.__init__`: both totals start at 0. -/
def PatientCostUtilityMonitor.init : PatientCostUtilityMonitor :=
  { totalDiscountedCost := 0, totalDiscountedUtility := 0 }

/-- The local `cost` computed by `PatientCostUtilityMonitor.update`
(lines 104-116): the trapezoidal average of the two states' annual costs,
plus half a year of treatment cost if the next state is HIV death and a full
year otherwise. -/
def stepCost (params : Parameters) (current_state next_state : HealthStates) : ℚ :=
  let cost := (1/2 : ℚ) * (params.annualStateCosts.getD current_state.value 0 +
                           params.annualStateCosts.getD next_state.value 0)
  if next_state = HealthStates.HIV_DEATH then
    cost + (1/2 : ℚ) * params.annualTreatmentCost
  else
    cost + 1 * params.annualTreatmentCost

/-- The local `utility` computed by `PatientCostUtilityMonitor.update`
(lines 107-109): the trapezoidal average of the two states' annual utilities. -/
def stepUtility (params : Parameters) (current_state next_state : HealthStates) : ℚ :=
  (1/2 : ℚ) * (params.annualStateUtilities.getD current_state.value 0 +
               params.annualStateUtilities.getD next_state.value 0)

/-- Method `PatientCostUtilityMonitor.update` (lines 97-124): add the present values
of the per-step cost and utility, discounted at half the annual rate over
`2*k + 1` half-year periods, to the running totals. -/
def PatientCostUtilityMonitor.update (params : Parameters) (k : ℕ)
    (current_state next_state : HealthStates)
    (m : PatientCostUtilityMonitor) : PatientCostUtilityMonitor :=
  { totalDiscountedCost := m.totalDiscountedCost +
      pv_single_payment (stepCost params current_state next_state)
        (params.discountRate / 2) (2 * k + 1),
    totalDiscountedUtility := m.totalDiscountedUtility +
      pv_single_payment (stepUtility params current_state next_state)
        (params.discountRate / 2) (2 * k + 1) }

/-- Class `PatientStateMonitor` of `EconEvalMarkovModelClasses.py`: current state,
optional survival time, optional time to AIDS, owned cost/utility monitor. -/
structure PatientStateMonitor where
  currentState : HealthStates
  survivalTime : Option ℚ
  timeToAIDS : Option ℚ
  costUtilityMonitor : PatientCostUtilityMonitor
  deriving DecidableEq, Repr

/-- Constructor `PatientStateMonitor.__init__` (lines 47-53). -/
def PatientStateMonitor.init (params : Parameters) : PatientStateMonitor :=
  { currentState := params.initialHealthState,
    survivalTime := none,
    timeToAIDS := none,
    costUtilityMonitor := PatientCostUtilityMonitor.init }

/-- Method `PatientStateMonitor.update` (lines 55-76).  No post-death guard: the
survival-time, time-to-AIDS, cost and current-state updates run
unconditionally. -/
def PatientStateMonitor.update (params : Parameters) (time_step : ℕ)
    (new_state : HealthStates) (m : PatientStateMonitor) : PatientStateMonitor :=
  let survivalTime :=
    if new_state = HealthStates.HIV_DEATH then some ((time_step : ℚ) + 1/2)
    else m.survivalTime
  let timeToAIDS :=
    if m.currentState ≠ HealthStates.AIDS ∧ new_state = HealthStates.AIDS then
      some ((time_step : ℚ) + 1/2)
    else m.timeToAIDS
  { currentState := new_state,
    survivalTime := survivalTime,
    timeToAIDS := timeToAIDS,
    costUtilityMonitor :=
      m.costUtilityMonitor.update params time_step m.currentState new_state }

/-- Method `PatientStateMonitor.get_if_alive` (lines 78-83). -/
def PatientStateMonitor.get_if_alive (m : PatientStateMonitor) : Bool :=
  m.currentState ≠ HealthStates.HIV_DEATH

/-- The `while` loop of `Patient.simulate` (lines 28-42): while the patient is
alive and the simulation length is not yet reached, sample a new state from
the current row of the transition matrix and push it into the monitor.  The
random number generator is modelled as a stream `draws` of Uniform(0,1)
values consumed one per loop iteration; `fuel` is the number of remaining
time steps `n_time_steps - k`.  Returns the final monitor together with the
final value of the loop counter `k`. -/
def simulateAux (params : Parameters) (draws : ℕ → ℚ) :
    ℕ → ℕ → PatientStateMonitor → PatientStateMonitor × ℕ
  | 0, k, m => (m, k)
  | fuel + 1, k, m =>
    if m.get_if_alive then
      let trans_probs := params.probMatrix.getD m.currentState.value []
      let new_state_index := firstExceeding trans_probs (draws k)
      simulateAux params draws fuel (k + 1)
        (m.update params k (HealthStates.ofValue new_state_index))
    else (m, k)

/-- Class `Patient` of `EconEvalMarkovModelClasses.py` (lines 10-18): an id and the
shared parameters; the state monitor is created from the parameters. -/
structure Patient where
  id : ℕ
  params : Parameters

/-- Method `Patient.simulate` (lines 20-42): the random number generator is created
inside `simulate`, seeded with the patient id (`np.random.RandomState(seed=self.id)`);
`rngStream` models the PRNG as a deterministic map from seed to draw stream. -/
def Patient.simulate (rngStream : ℕ → ℕ → ℚ) (p : Patient) (n_time_steps : ℕ) :
    PatientStateMonitor × ℕ :=
  simulateAux p.params (rngStream p.id) n_time_steps 0 (PatientStateMonitor.init p.params)

/-- The outcome values of one simulated patient, as read off by
`CohortOutcomes.extract_outcomes` (lines 180-190): survival time, time to
AIDS, total discounted cost, total discounted utility. -/
def Patient.outcomes (rngStream : ℕ → ℕ → ℚ) (p : Patient) (n_time_steps : ℕ) :
    Option ℚ × Option ℚ × ℚ × ℚ :=
  let m := (p.simulate rngStream n_time_steps).1
  (m.survivalTime, m.timeToAIDS,
   m.costUtilityMonitor.totalDiscountedCost,
   m.costUtilityMonitor.totalDiscountedUtility)

end EE

namespace MM
/-! ## `MarkovModelClasses.py` — the guarded variant -/

/-- Class `PatientCostUtilityMonitor` of `MarkovModelClasses.py`: running totals of
discounted cost and discounted utility, both initialised to 0. -/
structure PatientCostUtilityMonitor where
  totalDiscountedCost : ℚ
  totalDiscountedUtility : ℚ
  deriving DecidableEq, Repr

/-- Constructor `PatientCostUtilityMonitor.__init__`: both totals start at 0. -/
def PatientCostUtilityMonitor.init : PatientCostUtilityMonitor :=
  { totalDiscountedCost := 0, totalDiscountedUtility := 0 }

/-- Method `PatientCostUtilityMonitor.update` of `MarkovModelClasses.py`
(lines 102-119): the body holds only the docstring and comments (an unfilled
lab skeleton), so the call leaves the monitor unchanged. -/
def PatientCostUtilityMonitor.update (params : Parameters) (k : ℕ)
    (current_state next_state : HealthStates)
    (m : PatientCostUtilityMonitor) : PatientCostUtilityMonitor :=
  m

/-- Class `PatientStateMonitor` of `MarkovModelClasses.py`: current state, optional
survival time, optional time to AIDS, the `ifDevelopedAIDS` flag, owned
cost/utility monitor. -/
structure PatientStateMonitor where
  currentState : HealthStates
  survivalTime : Option ℚ
  timeToAIDS : Option ℚ
  ifDevelopedAIDS : Bool
  costUtilityMonitor : PatientCostUtilityMonitor
  deriving DecidableEq, Repr

/-- Constructor `PatientStateMonitor.__init__` (lines 46-53). -/
def PatientStateMonitor.init (params : Parameters) : PatientStateMonitor :=
  { currentState := params.initialHealthState,
    survivalTime := none,
    timeToAIDS := none,
    ifDevelopedAIDS := false,
    costUtilityMonitor := PatientCostUtilityMonitor.init }

/-- Method `PatientStateMonitor.update` (lines 55-81).  The absorption guard comes
first: if the patient has already died, do nothing. -/
def PatientStateMonitor.update (params : Parameters) (time_step : ℕ)
    (new_state : HealthStates) (m : PatientStateMonitor) : PatientStateMonitor :=
  if m.currentState = HealthStates.HIV_DEATH then m
  else
    let survivalTime :=
      if new_state = HealthStates.HIV_DEATH then some ((time_step : ℚ) + 1/2)
      else m.survivalTime
    let setAIDS := m.currentState ≠ HealthStates.AIDS ∧ new_state = HealthStates.AIDS
    { currentState := new_state,
      survivalTime := survivalTime,
      timeToAIDS := if setAIDS then some ((time_step : ℚ) + 1/2) else m.timeToAIDS,
      ifDevelopedAIDS := if setAIDS then true else m.ifDevelopedAIDS,
      costUtilityMonitor :=
        m.costUtilityMonitor.update params time_step m.currentState new_state }

/-- Method `PatientStateMonitor.get_if_alive` (lines 83-88). -/
def PatientStateMonitor.get_if_alive (m : PatientStateMonitor) : Bool :=
  m.currentState ≠ HealthStates.HIV_DEATH

/-- The `while` loop of `Patient.simulate` (lines 22-41): identical loop
structure to the other variant — sample from the empirical distribution of
the current row, update the monitor, increment `k`.  `draws` models the
patient-owned random number generator as a stream of Uniform(0,1) values;
`fuel` is the number of remaining time steps.  Returns the final monitor and
the final value of `k`. -/
def simulateAux (params : Parameters) (draws : ℕ → ℚ) :
    ℕ → ℕ → PatientStateMonitor → PatientStateMonitor × ℕ
  | 0, k, m => (m, k)
  | fuel + 1, k, m =>
    if m.get_if_alive then
      let trans_probs := params.probMatrix.getD m.currentState.value []
      let new_state_index := firstExceeding trans_probs (draws k)
      simulateAux params draws fuel (k + 1)
        (m.update params k (HealthStates.ofValue new_state_index))
    else (m, k)

/-- Class `Patient` of `MarkovModelClasses.py` (lines 8-17): an id, the shared
parameters, and a random number generator seeded with the id
(`RVGs.RNG(seed=id)`, created in `__init__`). -/
structure Patient where
  id : ℕ
  params : Parameters

/-- Method `Patient.simulate` (lines 19-41), run on a freshly constructed patient:
the generator created in `__init__` from seed `id` is modelled by
`rngStream id`, a deterministic draw stream. -/
def Patient.simulate (rngStream : ℕ → ℕ → ℚ) (p : Patient) (n_time_steps : ℕ) :
    PatientStateMonitor × ℕ :=
  simulateAux p.params (rngStream p.id) n_time_steps 0 (PatientStateMonitor.init p.params)

/-- The outcome values of one simulated patient, as read off by
`CohortOutcomes.extract_outcomes` (lines 172-182). -/
def Patient.outcomes (rngStream : ℕ → ℕ → ℚ) (p : Patient) (n_time_steps : ℕ) :
    Option ℚ × Option ℚ × ℚ × ℚ :=
  let m := (p.simulate rngStream n_time_steps).1
  (m.survivalTime, m.timeToAIDS,
   m.costUtilityMonitor.totalDiscountedCost,
   m.costUtilityMonitor.totalDiscountedUtility)

/-- The `timesToAIDS` vector built by `CohortOutcomes.extract_outcomes`
(lines 177-179): for each patient whose `ifDevelopedAIDS` flag is set, append
the raw `timeToAIDS` field (an `Option`, since in Python it may be `None`). -/
def extractTimesToAIDS (monitors : List PatientStateMonitor) : List (Option ℚ) :=
  (monitors.filter fun m => m.ifDevelopedAIDS).map fun m => m.timeToAIDS

/-- The invariant relating the onset flag to the onset time in the guarded
variant: `ifDevelopedAIDS` is true exactly when `timeToAIDS` has been set. -/
def aidsInvariant (m : PatientStateMonitor) : Prop :=
  m.ifDevelopedAIDS = true ↔ m.timeToAIDS ≠ none

instance (m : PatientStateMonitor) : Decidable (aidsInvariant m) := by
  unfold aidsInvariant; infer_instance

end MM

/-- The patient ids created by `Cohort` (`Cohort.__init__` lines 134-139 of
`MarkovModelClasses.py`, `Cohort.simulate` lines 144-151 of
`EconEvalMarkovModelClasses.py`): `id * pop_size + i` for `i` in
`range(pop_size)`. -/
def cohortPatientIds (id pop_size : ℕ) : List ℕ :=
  (List.range pop_size).map fun i => id * pop_size + i

/-- The concrete scenario of spec §8: three states Well/AIDS/Death, the given
transition matrix, annual costs `[100, 500, 0]`, annual utilities
`[1.0, 0.7, 0]`, treatment cost 200 per year, discount rate 3%. -/
def scenarioParams : Parameters :=
  { initialHealthState := .WELL,
    probMatrix := [[9/10, 2/25, 1/50], [0, 17/20, 3/20], [0, 0, 1]],
    annualStateCosts := [100, 500, 0],
    annualStateUtilities := [1, 7/10, 0],
    annualTreatmentCost := 200,
    discountRate := 3/100 }

/-- A monitor of the unguarded variant that has already absorbed at death:
died at step 2 (`survivalTime = 2.5`). -/
def deadMonitorEE : EE.PatientStateMonitor :=
  { currentState := .HIV_DEATH, survivalTime := some (5/2), timeToAIDS := none,
    costUtilityMonitor := EE.PatientCostUtilityMonitor.init }

/-- A monitor of the guarded variant that has already absorbed at death. -/
def deadMonitorMM : MM.PatientStateMonitor :=
  { currentState := .HIV_DEATH, survivalTime := some (5/2), timeToAIDS := none,
    ifDevelopedAIDS := false, costUtilityMonitor := MM.PatientCostUtilityMonitor.init }

/-! ## C1 -/

/-- C1 counterexample: in the unguarded variant
(`EconEvalMarkovModelClasses.py`), `update` called on a monitor whose current
state is the death state is *not* a no-op: with the spec §8 parameters, an
update at time step 7 with `new_state` the death state overwrites the
already-set `survivalTime = 2.5` with `7.5` and strictly increases
`totalDiscountedCost`. -/
theorem ee_update_after_death_not_noop :
    deadMonitorEE.currentState = HealthStates.HIV_DEATH ∧
    deadMonitorEE.survivalTime = some (5/2) ∧
    (EE.PatientStateMonitor.update scenarioParams 7 HealthStates.HIV_DEATH
        deadMonitorEE).survivalTime = some (15/2) ∧
    (EE.PatientStateMonitor.update scenarioParams 7 HealthStates.HIV_DEATH
        deadMonitorEE).costUtilityMonitor.totalDiscountedCost ≠
      deadMonitorEE.costUtilityMonitor.totalDiscountedCost := by
  refine ⟨rfl, rfl, ?_, ?_⟩
  · norm_num [EE.PatientStateMonitor.update, deadMonitorEE]
  · norm_num [EE.PatientStateMonitor.update, EE.PatientCostUtilityMonitor.update,
      EE.PatientCostUtilityMonitor.init, pv_single_payment, EE.stepCost,
      deadMonitorEE, scenarioParams, HealthStates.value]

/-- C1 (amended): in the guarded variant (`MarkovModelClasses.py`), a call
to `update` on a monitor whose current state is the absorbing death state is a
no-op: the whole monitor, hence every field, is unchanged. -/
theorem mm_update_after_death_noop (params : Parameters) (time_step : ℕ)
    (new_state : HealthStates) (m : MM.PatientStateMonitor)
    (h : m.currentState = HealthStates.HIV_DEATH) :
    m.update params time_step new_state = m := by
  unfold MM.PatientStateMonitor.update
  rw [if_pos h]

/-- Witness for the amended C1 theorem at a concrete dead monitor. -/
theorem mm_update_after_death_noop_witness :
    MM.PatientStateMonitor.update scenarioParams 3 HealthStates.WELL deadMonitorMM =
      deadMonitorMM :=
  mm_update_after_death_noop scenarioParams 3 HealthStates.WELL deadMonitorMM rfl

/-! ## C2 -/

/-- C2: in both variants, for an update on a monitor whose current state
is not the death state: if the new state is the death state then afterwards
`survivalTime = time_step + 0.5`, and otherwise `survivalTime` is unchanged. -/
theorem update_survival_time_before_death (params : Parameters) (time_step : ℕ)
    (new_state : HealthStates)
    (me : EE.PatientStateMonitor) (mg : MM.PatientStateMonitor)
    (he : me.currentState ≠ HealthStates.HIV_DEATH)
    (hg : mg.currentState ≠ HealthStates.HIV_DEATH) :
    (new_state = HealthStates.HIV_DEATH →
      (me.update params time_step new_state).survivalTime =
          some ((time_step : ℚ) + 1/2) ∧
      (mg.update params time_step new_state).survivalTime =
          some ((time_step : ℚ) + 1/2)) ∧
    (new_state ≠ HealthStates.HIV_DEATH →
      (me.update params time_step new_state).survivalTime = me.survivalTime ∧
      (mg.update params time_step new_state).survivalTime = mg.survivalTime) := by
  constructor
  · intro hd
    exact ⟨by simp [EE.PatientStateMonitor.update, hd],
           by simp [MM.PatientStateMonitor.update, hg, hd]⟩
  · intro hd
    exact ⟨by simp [EE.PatientStateMonitor.update, hd],
           by simp [MM.PatientStateMonitor.update, hg, hd]⟩

/-- Witness for C2: a fresh patient in the Well state who transitions to the
death state at time step 3 gets `survivalTime = 3.5`. -/
theorem update_survival_time_before_death_witness :
    ((EE.PatientStateMonitor.init scenarioParams).update scenarioParams 3
        HealthStates.HIV_DEATH).survivalTime = some ((3 : ℚ) + 1/2) :=
  ((update_survival_time_before_death scenarioParams 3 HealthStates.HIV_DEATH
      (EE.PatientStateMonitor.init scenarioParams)
      (MM.PatientStateMonitor.init scenarioParams)
      (by decide) (by decide)).1 rfl).1

/-! ## C4 -/

/-- C4: the undiscounted per-step cost computed by the accumulator is the
trapezoidal average of the two states' annual costs plus a half year of
treatment cost when the next state is death and a full year otherwise, and
the per-step utility is the trapezoidal average of the two states' annual
utilities with no treatment term. -/
theorem per_step_cost_utility_formula (params : Parameters)
    (current_state next_state : HealthStates) :
    (next_state = HealthStates.HIV_DEATH →
      EE.stepCost params current_state next_state =
        1/2 * (params.annualStateCosts.getD current_state.value 0 +
               params.annualStateCosts.getD next_state.value 0) +
        1/2 * params.annualTreatmentCost) ∧
    (next_state ≠ HealthStates.HIV_DEATH →
      EE.stepCost params current_state next_state =
        1/2 * (params.annualStateCosts.getD current_state.value 0 +
               params.annualStateCosts.getD next_state.value 0) +
        params.annualTreatmentCost) ∧
    EE.stepUtility params current_state next_state =
      1/2 * (params.annualStateUtilities.getD current_state.value 0 +
             params.annualStateUtilities.getD next_state.value 0) := by
  refine ⟨fun hd => ?_, fun hd => ?_, rfl⟩
  · simp [EE.stepCost, hd]
  · simp [EE.stepCost, hd]

/-- Witness for C4 with the spec §8 tables: a Well-to-death step costs
`0.5 * (100 + 0) + 0.5 * 200 = 150` before discounting. -/
theorem per_step_cost_utility_formula_witness :
    EE.stepCost scenarioParams HealthStates.WELL HealthStates.HIV_DEATH = 150 := by
  rw [(per_step_cost_utility_formula scenarioParams HealthStates.WELL
        HealthStates.HIV_DEATH).1 rfl]
  norm_num [scenarioParams, HealthStates.value]

/-! ## C5 -/

/-- C5: each accumulator update adds exactly
`per_step_cost / (1 + annualDiscountRate/2)^(2k+1)` to the total discounted
cost and `per_step_utility / (1 + annualDiscountRate/2)^(2k+1)` to the total
discounted utility, and nothing else. -/
theorem discounted_totals_increment (params : Parameters) (k : ℕ)
    (current_state next_state : HealthStates) (m : EE.PatientCostUtilityMonitor) :
    (m.update params k current_state next_state).totalDiscountedCost =
      m.totalDiscountedCost +
        EE.stepCost params current_state next_state /
          (1 + params.discountRate / 2) ^ (2 * k + 1) ∧
    (m.update params k current_state next_state).totalDiscountedUtility =
      m.totalDiscountedUtility +
        EE.stepUtility params current_state next_state /
          (1 + params.discountRate / 2) ^ (2 * k + 1) :=
  ⟨rfl, rfl⟩

/-! ## C6 -/

/-- Indexing a list of non-negative rationals (with default 0) yields a
non-negative value. -/
theorem list_getD_nonneg (l : List ℚ) (i : ℕ) (h : ∀ x ∈ l, 0 ≤ x) :
    0 ≤ l.getD i 0 := by
  induction l generalizing i with
  | nil => simp [List.getD]
  | cons a t ih =>
    cases i with
    | zero => simpa using h a (by simp)
    | succ n =>
      simp only [List.getD_cons_succ]
      exact ih n fun x hx => h x (by simp [hx])

/-- Present values of non-negative payments at non-negative rates are
non-negative. -/
theorem pv_single_payment_nonneg (payment rate : ℚ) (period : ℕ)
    (hp : 0 ≤ payment) (hr : 0 ≤ rate) :
    0 ≤ pv_single_payment payment rate period :=
  div_nonneg hp (pow_nonneg (by linarith) period)

/-- C6: with non-negative cost and utility tables, treatment cost and
discount rate, both discounted totals start at 0 and never decrease across
accumulator updates. -/
theorem totals_monotone (params : Parameters)
    (hc : ∀ x ∈ params.annualStateCosts, 0 ≤ x)
    (hu : ∀ x ∈ params.annualStateUtilities, 0 ≤ x)
    (ht : 0 ≤ params.annualTreatmentCost)
    (hr : 0 ≤ params.discountRate) :
    EE.PatientCostUtilityMonitor.init.totalDiscountedCost = 0 ∧
    EE.PatientCostUtilityMonitor.init.totalDiscountedUtility = 0 ∧
    ∀ (k : ℕ) (current_state next_state : HealthStates)
      (m : EE.PatientCostUtilityMonitor),
      m.totalDiscountedCost ≤
        (m.update params k current_state next_state).totalDiscountedCost ∧
      m.totalDiscountedUtility ≤
        (m.update params k current_state next_state).totalDiscountedUtility := by
  refine ⟨rfl, rfl, fun k cs ns m => ?_⟩
  have h1 := list_getD_nonneg params.annualStateCosts cs.value hc
  have h2 := list_getD_nonneg params.annualStateCosts ns.value hc
  have h3 := list_getD_nonneg params.annualStateUtilities cs.value hu
  have h4 := list_getD_nonneg params.annualStateUtilities ns.value hu
  have hcost : 0 ≤ EE.stepCost params cs ns := by
    simp only [EE.stepCost]
    split_ifs <;> linarith
  have hutil : 0 ≤ EE.stepUtility params cs ns := by
    simp only [EE.stepUtility]
    linarith
  have hrate : (0:ℚ) ≤ params.discountRate / 2 := by linarith
  have hpvc := pv_single_payment_nonneg _ _ (2 * k + 1) hcost hrate
  have hpvu := pv_single_payment_nonneg _ _ (2 * k + 1) hutil hrate
  constructor
  · simp only [EE.PatientCostUtilityMonitor.update]
    linarith
  · simp only [EE.PatientCostUtilityMonitor.update]
    linarith

/-! ## C3 -/

/-- The sampler only returns indices carrying positive probability: if
`0 ≤ u < probs.sum`, the entry of `probs` at the sampled index is positive. -/
theorem firstExceeding_pos (probs : List ℚ) (u : ℚ) (hu : 0 ≤ u)
    (hs : u < probs.sum) :
    0 < probs.getD (firstExceeding probs u) 0 := by
  induction probs generalizing u with
  | nil => simp only [List.sum_nil] at hs; linarith
  | cons p rest ih =>
    by_cases hlt : u < p
    · simp only [firstExceeding, if_pos hlt, List.getD_cons_zero]
      linarith
    · simp only [firstExceeding, if_neg hlt, List.getD_cons_succ]
      refine ih (u - p) (by linarith) ?_
      simp only [List.sum_cons] at hs
      linarith

/-- One unfolding of the guarded variant's simulation loop. -/
theorem mm_simulateAux_succ (params : Parameters) (draws : ℕ → ℚ)
    (fuel k : ℕ) (m : MM.PatientStateMonitor) :
    MM.simulateAux params draws (fuel + 1) k m =
      if m.get_if_alive then
        MM.simulateAux params draws fuel (k + 1)
          (m.update params k (HealthStates.ofValue
            (firstExceeding (params.probMatrix.getD m.currentState.value [])
              (draws k))))
      else (m, k) :=
  rfl

/-- One unfolding of the unguarded variant's simulation loop. -/
theorem ee_simulateAux_succ (params : Parameters) (draws : ℕ → ℚ)
    (fuel k : ℕ) (m : EE.PatientStateMonitor) :
    EE.simulateAux params draws (fuel + 1) k m =
      if m.get_if_alive then
        EE.simulateAux params draws fuel (k + 1)
          (m.update params k (HealthStates.ofValue
            (firstExceeding (params.probMatrix.getD m.currentState.value [])
              (draws k))))
      else (m, k) :=
  rfl

/-- A transition matrix that satisfies all configuration invariants (rows sum
to 1, non-negative entries, absorbing death row) but in which AIDS can be
exited back to Well: Well always moves to AIDS and AIDS always moves back to
Well. -/
def cycleParams : Parameters :=
  { initialHealthState := .WELL,
    probMatrix := [[0, 1, 0], [1, 0, 0], [0, 0, 1]],
    annualStateCosts := [0, 0, 0],
    annualStateUtilities := [0, 0, 0],
    annualTreatmentCost := 0,
    discountRate := 0 }

/-- C3 counterexample: under `cycleParams` — a matrix satisfying every
configuration invariant — a patient of the guarded variant simulated with
draw stream constantly 0 follows Well → AIDS → Well → AIDS, so `timeToAIDS`
is assigned at step 0 (value 0.5) and assigned *again*, i.e. overwritten, at
step 2 (value 2.5): it is not set at most once per simulation. -/
theorem mm_timeToAIDS_overwritten_cex :
    (∀ row ∈ cycleParams.probMatrix, row.sum = 1 ∧ ∀ p ∈ row, 0 ≤ p) ∧
    cycleParams.probMatrix.getD HealthStates.HIV_DEATH.value [] = [0, 0, 1] ∧
    ((MM.simulateAux cycleParams (fun _ => 0) 1 0
        (MM.PatientStateMonitor.init cycleParams)).1).timeToAIDS = some (1/2) ∧
    ((MM.simulateAux cycleParams (fun _ => 0) 3 0
        (MM.PatientStateMonitor.init cycleParams)).1).timeToAIDS = some (5/2) := by
  refine ⟨?_, ?_, ?_, ?_⟩
  · intro row hrow
    simp only [cycleParams, List.mem_cons, List.not_mem_nil, or_false] at hrow
    rcases hrow with rfl | rfl | rfl <;>
      exact ⟨by norm_num, by intro p hp; fin_cases hp <;> norm_num⟩
  · norm_num [cycleParams, HealthStates.value]
  · rw [show (1 : ℕ) = 0 + 1 from rfl, mm_simulateAux_succ]
    simp [MM.PatientStateMonitor.get_if_alive, MM.PatientStateMonitor.init,
      MM.PatientStateMonitor.update, MM.PatientCostUtilityMonitor.update,
      MM.PatientCostUtilityMonitor.init, MM.simulateAux, firstExceeding,
      HealthStates.ofValue, HealthStates.value, cycleParams]
  · rw [show (3 : ℕ) = 2 + 1 from rfl, mm_simulateAux_succ]
    simp only [MM.PatientStateMonitor.get_if_alive, MM.PatientStateMonitor.init,
      MM.PatientStateMonitor.update, MM.PatientCostUtilityMonitor.update,
      MM.PatientCostUtilityMonitor.init, firstExceeding,
      HealthStates.ofValue, HealthStates.value, cycleParams]
    norm_num
    rw [show (2 : ℕ) = 1 + 1 from rfl, mm_simulateAux_succ]
    simp only [MM.PatientStateMonitor.get_if_alive,
      MM.PatientStateMonitor.update, MM.PatientCostUtilityMonitor.update,
      firstExceeding, HealthStates.ofValue, HealthStates.value, cycleParams]
    norm_num
    rw [show (1 : ℕ) = 0 + 1 from rfl, mm_simulateAux_succ]
    simp [MM.PatientStateMonitor.get_if_alive,
      MM.PatientStateMonitor.update, MM.PatientCostUtilityMonitor.update,
      MM.simulateAux, firstExceeding, HealthStates.ofValue, HealthStates.value,
      cycleParams]
    norm_num

/-- C3 (amended): in both variants, an update changes `timeToAIDS` only
when the current state is not AIDS and the new state is AIDS (and then sets
it to `time_step + 0.5`); and — under the additional assumption that the AIDS
row of the transition matrix assigns probability 0 to the Well state, i.e.
AIDS is never exited to a non-AIDS living state — once `timeToAIDS` is set
(so the current state is AIDS or death), no later step of the simulation loop
ever changes it. -/
theorem timeToAIDS_assigned_once (params : Parameters) (draws : ℕ → ℚ)
    (hdraw : ∀ i, 0 ≤ draws i ∧ draws i < 1)
    (hsum : (params.probMatrix.getD HealthStates.AIDS.value []).sum = 1)
    (h0 : (params.probMatrix.getD HealthStates.AIDS.value []).getD
        HealthStates.WELL.value 0 = 0) :
    (∀ (m : MM.PatientStateMonitor) (t : ℕ) (s : HealthStates),
        (m.update params t s).timeToAIDS ≠ m.timeToAIDS →
        m.currentState ≠ HealthStates.AIDS ∧ s = HealthStates.AIDS ∧
          (m.update params t s).timeToAIDS = some ((t : ℚ) + 1/2)) ∧
    (∀ (m : EE.PatientStateMonitor) (t : ℕ) (s : HealthStates),
        (m.update params t s).timeToAIDS ≠ m.timeToAIDS →
        m.currentState ≠ HealthStates.AIDS ∧ s = HealthStates.AIDS ∧
          (m.update params t s).timeToAIDS = some ((t : ℚ) + 1/2)) ∧
    (∀ (fuel k : ℕ) (m : MM.PatientStateMonitor) (v : ℚ),
        m.timeToAIDS = some v →
        (m.currentState = HealthStates.AIDS ∨
         m.currentState = HealthStates.HIV_DEATH) →
        ((MM.simulateAux params draws fuel k m).1).timeToAIDS = some v) ∧
    (∀ (fuel k : ℕ) (m : EE.PatientStateMonitor) (v : ℚ),
        m.timeToAIDS = some v →
        (m.currentState = HealthStates.AIDS ∨
         m.currentState = HealthStates.HIV_DEATH) →
        ((EE.simulateAux params draws fuel k m).1).timeToAIDS = some v) := by
  have hnext : ∀ j : ℕ, j ≠ 0 →
      HealthStates.ofValue j = HealthStates.AIDS ∨
      HealthStates.ofValue j = HealthStates.HIV_DEATH := by
    intro j hj
    match j, hj with
    | 1, _ => exact Or.inl rfl
    | (n + 2), _ => exact Or.inr rfl
  have hsample : ∀ k : ℕ,
      firstExceeding (params.probMatrix.getD HealthStates.AIDS.value [])
        (draws k) ≠ 0 := by
    intro k hzero
    have hpos := firstExceeding_pos
      (params.probMatrix.getD HealthStates.AIDS.value []) (draws k)
      (hdraw k).1 (by rw [hsum]; exact (hdraw k).2)
    rw [hzero] at hpos
    rw [show (HealthStates.WELL.value : ℕ) = 0 from rfl] at h0
    rw [h0] at hpos
    exact lt_irrefl 0 hpos
  refine ⟨?_, ?_, ?_, ?_⟩
  · intro m t s hch
    by_cases hdead : m.currentState = HealthStates.HIV_DEATH
    · exact absurd
        (by unfold MM.PatientStateMonitor.update; rw [if_pos hdead]) hch
    · by_cases hset : m.currentState ≠ HealthStates.AIDS ∧ s = HealthStates.AIDS
      · refine ⟨hset.1, hset.2, ?_⟩
        unfold MM.PatientStateMonitor.update
        rw [if_neg hdead]
        simp [hset]
      · exact absurd
          (by unfold MM.PatientStateMonitor.update; rw [if_neg hdead];
              simp [hset]) hch
  · intro m t s hch
    unfold EE.PatientStateMonitor.update at hch ⊢
    by_cases hset : m.currentState ≠ HealthStates.AIDS ∧ s = HealthStates.AIDS
    · exact ⟨hset.1, hset.2, by simp [hset]⟩
    · exact absurd (by simp [hset]) hch
  · intro fuel
    induction fuel with
    | zero => intro k m v hv _; exact hv
    | succ n ih =>
      intro k m v hv hst
      rcases hst with hst | hst
      · rw [mm_simulateAux_succ]
        rw [if_pos (by simp [MM.PatientStateMonitor.get_if_alive, hst])]
        have hj := hsample k
        rw [hst]
        refine ih (k + 1) _ v ?_ ?_
        · simp [MM.PatientStateMonitor.update, hst, hv]
        · have hcs : (MM.PatientStateMonitor.update params k
              (HealthStates.ofValue (firstExceeding
                (params.probMatrix.getD HealthStates.AIDS.value [])
                (draws k))) m).currentState =
              HealthStates.ofValue (firstExceeding
                (params.probMatrix.getD HealthStates.AIDS.value [])
                (draws k)) := by
            unfold MM.PatientStateMonitor.update
            rw [if_neg (by simp [hst])]
          rw [hcs]
          exact hnext _ hj
      · rw [mm_simulateAux_succ]
        rw [if_neg (by simp [MM.PatientStateMonitor.get_if_alive, hst])]
        exact hv
  · intro fuel
    induction fuel with
    | zero => intro k m v hv _; exact hv
    | succ n ih =>
      intro k m v hv hst
      rcases hst with hst | hst
      · rw [ee_simulateAux_succ]
        rw [if_pos (by simp [EE.PatientStateMonitor.get_if_alive, hst])]
        have hj := hsample k
        rw [hst]
        refine ih (k + 1) _ v ?_ ?_
        · simp [EE.PatientStateMonitor.update, hst, hv]
        · exact hnext _ hj
      · rw [ee_simulateAux_succ]
        rw [if_neg (by simp [EE.PatientStateMonitor.get_if_alive, hst])]
        exact hv

/-- Witness for the amended C3 theorem: under the spec §8 matrix (whose AIDS
row is `[0, 0.85, 0.15]`), a monitor that already recorded `timeToAIDS = 0.5`
and sits in the AIDS state keeps that value over two further loop steps. -/
theorem timeToAIDS_assigned_once_witness :
    ((MM.simulateAux scenarioParams (fun _ => 1/2) 2 1
        { currentState := HealthStates.AIDS, survivalTime := none,
          timeToAIDS := some (1/2), ifDevelopedAIDS := true,
          costUtilityMonitor := MM.PatientCostUtilityMonitor.init }).1).timeToAIDS =
      some (1/2) :=
  (timeToAIDS_assigned_once scenarioParams (fun _ => 1/2)
      (fun _ => ⟨by norm_num, by norm_num⟩)
      (by norm_num [scenarioParams, HealthStates.value])
      (by norm_num [scenarioParams, HealthStates.value])).2.2.1 2 1 _ (1/2)
    rfl (Or.inl rfl)

/-- Witness for C6 with the spec §8 parameters: the first step of a
Well-to-AIDS patient does not decrease the discounted cost total. -/
theorem totals_monotone_witness :
    EE.PatientCostUtilityMonitor.init.totalDiscountedCost ≤
      (EE.PatientCostUtilityMonitor.init.update scenarioParams 0
          HealthStates.WELL HealthStates.AIDS).totalDiscountedCost :=
  ((totals_monotone scenarioParams
      (by norm_num [scenarioParams]) (by norm_num [scenarioParams])
      (by norm_num [scenarioParams]) (by norm_num [scenarioParams])).2.2
    0 HealthStates.WELL HealthStates.AIDS EE.PatientCostUtilityMonitor.init).1

/-! ## C7 -/

/-- The guarded variant's loop invariant for C7: the loop ends either dead or
having consumed all its fuel while alive. -/
theorem mm_simulateAux_dichotomy (params : Parameters) (draws : ℕ → ℚ) :
    ∀ (fuel k : ℕ) (m : MM.PatientStateMonitor),
      (MM.simulateAux params draws fuel k m).1.currentState =
          HealthStates.HIV_DEATH ∨
      ((MM.simulateAux params draws fuel k m).2 = k + fuel ∧
        (MM.simulateAux params draws fuel k m).1.currentState ≠
          HealthStates.HIV_DEATH) := by
  intro fuel
  induction fuel with
  | zero =>
    intro k m
    by_cases h : m.currentState = HealthStates.HIV_DEATH
    · exact Or.inl h
    · exact Or.inr ⟨rfl, h⟩
  | succ n ih =>
    intro k m
    by_cases h : m.currentState = HealthStates.HIV_DEATH
    · rw [mm_simulateAux_succ,
        if_neg (by simp [MM.PatientStateMonitor.get_if_alive, h])]
      exact Or.inl h
    · rw [mm_simulateAux_succ,
        if_pos (by simp [MM.PatientStateMonitor.get_if_alive, h])]
      rcases ih (k + 1) _ with h' | ⟨h1, h2⟩
      · exact Or.inl h'
      · exact Or.inr ⟨by omega, h2⟩

/-- The unguarded variant's loop invariant for C7. -/
theorem ee_simulateAux_dichotomy (params : Parameters) (draws : ℕ → ℚ) :
    ∀ (fuel k : ℕ) (m : EE.PatientStateMonitor),
      (EE.simulateAux params draws fuel k m).1.currentState =
          HealthStates.HIV_DEATH ∨
      ((EE.simulateAux params draws fuel k m).2 = k + fuel ∧
        (EE.simulateAux params draws fuel k m).1.currentState ≠
          HealthStates.HIV_DEATH) := by
  intro fuel
  induction fuel with
  | zero =>
    intro k m
    by_cases h : m.currentState = HealthStates.HIV_DEATH
    · exact Or.inl h
    · exact Or.inr ⟨rfl, h⟩
  | succ n ih =>
    intro k m
    by_cases h : m.currentState = HealthStates.HIV_DEATH
    · rw [ee_simulateAux_succ,
        if_neg (by simp [EE.PatientStateMonitor.get_if_alive, h])]
      exact Or.inl h
    · rw [ee_simulateAux_succ,
        if_pos (by simp [EE.PatientStateMonitor.get_if_alive, h])]
      rcases ih (k + 1) _ with h' | ⟨h1, h2⟩
      · exact Or.inl h'
      · exact Or.inr ⟨by omega, h2⟩

/-- C7: in both variants, `simulate` (a total function here, so it always
terminates) ends in exactly one of two classifications: the final state is
the absorbing death state, or the loop counter reached `n_time_steps` with
the patient still alive — never both, and never neither. -/
theorem simulate_dichotomy (params : Parameters) (rngStream : ℕ → ℕ → ℚ)
    (pe : EE.Patient) (pg : MM.Patient) (n : ℕ) (hn : 0 < n) :
    ((pe.simulate rngStream n).1.currentState = HealthStates.HIV_DEATH ∨
      ((pe.simulate rngStream n).2 = n ∧
        (pe.simulate rngStream n).1.currentState ≠ HealthStates.HIV_DEATH)) ∧
    ¬((pe.simulate rngStream n).1.currentState = HealthStates.HIV_DEATH ∧
      ((pe.simulate rngStream n).2 = n ∧
        (pe.simulate rngStream n).1.currentState ≠ HealthStates.HIV_DEATH)) ∧
    ((pg.simulate rngStream n).1.currentState = HealthStates.HIV_DEATH ∨
      ((pg.simulate rngStream n).2 = n ∧
        (pg.simulate rngStream n).1.currentState ≠ HealthStates.HIV_DEATH)) ∧
    ¬((pg.simulate rngStream n).1.currentState = HealthStates.HIV_DEATH ∧
      ((pg.simulate rngStream n).2 = n ∧
        (pg.simulate rngStream n).1.currentState ≠ HealthStates.HIV_DEATH)) := by
  refine ⟨?_, fun h => h.2.2 h.1, ?_, fun h => h.2.2 h.1⟩
  · have h := ee_simulateAux_dichotomy pe.params (rngStream pe.id) n 0
      (EE.PatientStateMonitor.init pe.params)
    simpa [EE.Patient.simulate] using h
  · have h := mm_simulateAux_dichotomy pg.params (rngStream pg.id) n 0
      (MM.PatientStateMonitor.init pg.params)
    simpa [MM.Patient.simulate] using h

/-- Witness for C7: a concrete patient with the spec §8 parameters and a
constant draw stream, simulated for 2 steps. -/
theorem simulate_dichotomy_witness :
    ((EE.Patient.simulate (fun _ _ => 1/2) ⟨0, scenarioParams⟩ 2).1.currentState =
        HealthStates.HIV_DEATH ∨
      ((EE.Patient.simulate (fun _ _ => 1/2) ⟨0, scenarioParams⟩ 2).2 = 2 ∧
        (EE.Patient.simulate (fun _ _ => 1/2) ⟨0, scenarioParams⟩ 2).1.currentState ≠
          HealthStates.HIV_DEATH)) :=
  (simulate_dichotomy scenarioParams (fun _ _ => 1/2) ⟨0, scenarioParams⟩
      ⟨0, scenarioParams⟩ 2 (by norm_num)).1

/-! ## C8 -/

/-- C8: in both variants, a patient's extracted outcome values —
survival time, time to AIDS, total discounted cost, total discounted
utility — are a deterministic function of its id, its parameters and the
number of time steps: two patients built from equal ids and equal parameters
produce identical outcomes.  The PRNG is modelled as a deterministic draw
stream `rngStream id`, reflecting that the source seeds its generator
exclusively with the patient id. -/
theorem outcomes_deterministic (rngStream : ℕ → ℕ → ℚ) (n : ℕ)
    (pe qe : EE.Patient) (pg qg : MM.Patient)
    (he1 : pe.id = qe.id) (he2 : pe.params = qe.params)
    (hg1 : pg.id = qg.id) (hg2 : pg.params = qg.params) :
    EE.Patient.outcomes rngStream pe n = EE.Patient.outcomes rngStream qe n ∧
    MM.Patient.outcomes rngStream pg n = MM.Patient.outcomes rngStream qg n := by
  have hpe : pe = qe := by
    cases pe; cases qe
    congr 1
  have hpg : pg = qg := by
    cases pg; cases qg
    congr 1
  rw [hpe, hpg]
  exact ⟨rfl, rfl⟩

/-- Witness for C8 at a concrete id, parameter set and step count. -/
theorem outcomes_deterministic_witness :
    EE.Patient.outcomes (fun _ _ => 1/2) ⟨7, scenarioParams⟩ 4 =
      EE.Patient.outcomes (fun _ _ => 1/2) ⟨7, scenarioParams⟩ 4 :=
  (outcomes_deterministic (fun _ _ => 1/2) 4 ⟨7, scenarioParams⟩
      ⟨7, scenarioParams⟩ ⟨7, scenarioParams⟩ ⟨7, scenarioParams⟩
      rfl rfl rfl rfl).1

/-! ## C9 -/

/-- C9 counterexample: with cohorts of *different* population sizes the
derived patient ids are not globally unique: cohort 1 with population 3 uses
ids `{3, 4, 5}` and cohort 2 with population 2 uses ids `{4, 5}`, so id 4 is
shared although the cohort ids 1 and 2 are distinct and non-negative. -/
theorem cohort_ids_not_globally_unique_cex :
    4 ∈ cohortPatientIds 1 3 ∧ 4 ∈ cohortPatientIds 2 2 ∧ (1 : ℕ) ≠ 2 := by
  refine ⟨?_, ?_, ?_⟩ <;> decide

/-- Base-`P` positional uniqueness of the id scheme. -/
theorem cohort_id_decomposition (a b P i j : ℕ) (hi : i < P) (hj : j < P)
    (hab : a * P + i = b * P + j) : a = b := by
  have hP : 0 < P := lt_of_le_of_lt (Nat.zero_le i) hi
  have hab' : P * a + i = P * b + j := by
    rw [Nat.mul_comm P a, Nat.mul_comm P b]; exact hab
  calc a = (P * a + i) / P := by
        rw [Nat.mul_add_div hP, Nat.div_eq_of_lt hi, Nat.add_zero]
    _ = (P * b + j) / P := by rw [hab']
    _ = b := by rw [Nat.mul_add_div hP, Nat.div_eq_of_lt hj, Nat.add_zero]

/-- C9 (amended): a cohort with id `cohortId` and population `popSize`
constructs exactly `popSize` patients with ids `cohortId * popSize + i` for
`i` in `[0, popSize)`; and across cohorts with distinct ids that share the
*same* population size, patient ids are globally unique (the id lists are
disjoint). -/
theorem cohort_ids_spec (id pop_size : ℕ) :
    (cohortPatientIds id pop_size).length = pop_size ∧
    (∀ i, i < pop_size →
      (cohortPatientIds id pop_size).getD i 0 = id * pop_size + i) ∧
    (∀ id2, id ≠ id2 → ∀ x, x ∈ cohortPatientIds id pop_size →
      x ∉ cohortPatientIds id2 pop_size) := by
  refine ⟨by simp [cohortPatientIds], fun i hi => ?_, fun id2 hne x hx hx2 => ?_⟩
  · simp [cohortPatientIds, List.getD_eq_getElem?_getD, hi]
  · simp only [cohortPatientIds, List.mem_map, List.mem_range] at hx hx2
    obtain ⟨i, hi, rfl⟩ := hx
    obtain ⟨j, hj, hEq⟩ := hx2
    exact hne (cohort_id_decomposition id id2 pop_size i j hi hj hEq.symm)

/-- Witness for C9: id 5 belongs to cohort 1 of size 3 and therefore not to
cohort 2 of the same size. -/
theorem cohort_ids_spec_witness : (5 : ℕ) ∉ cohortPatientIds 2 3 :=
  (cohort_ids_spec 1 3).2.2 2 (by decide) 5 (by decide)

/-! ## C10 -/

/-- C10: in the guarded variant, `ifDevelopedAIDS` is true exactly when
`timeToAIDS` is set, both initially and after any update; consequently the
`timesToAIDS` vector built by `extract_outcomes` from monitors satisfying the
invariant never contains a `None` entry. -/
theorem aids_flag_iff_time_set (params : Parameters) :
    MM.aidsInvariant (MM.PatientStateMonitor.init params) ∧
    (∀ (m : MM.PatientStateMonitor) (time_step : ℕ) (new_state : HealthStates),
      MM.aidsInvariant m →
      MM.aidsInvariant (m.update params time_step new_state)) ∧
    (∀ monitors : List MM.PatientStateMonitor,
      (∀ m ∈ monitors, MM.aidsInvariant m) →
      none ∉ MM.extractTimesToAIDS monitors) := by
  refine ⟨by simp [MM.aidsInvariant, MM.PatientStateMonitor.init],
    fun m t s hm => ?_, fun monitors hall hmem => ?_⟩
  · unfold MM.PatientStateMonitor.update
    split
    · exact hm
    · by_cases hset : m.currentState ≠ HealthStates.AIDS ∧ s = HealthStates.AIDS
      · simp [MM.aidsInvariant, hset]
      · unfold MM.aidsInvariant at hm ⊢
        simp only [hset, if_false]
        simpa using hm
  · unfold MM.extractTimesToAIDS at hmem
    simp only [List.mem_map, List.mem_filter] at hmem
    obtain ⟨m, ⟨hmm, hflag⟩, hnone⟩ := hmem
    exact (hall m hmm).1 (by simpa using hflag) hnone

/-- Witness for C10 with a singleton cohort whose patient moved Well → AIDS
at step 0. -/
theorem aids_flag_iff_time_set_witness :
    none ∉ MM.extractTimesToAIDS
      [MM.PatientStateMonitor.update scenarioParams 0 HealthStates.AIDS
        (MM.PatientStateMonitor.init scenarioParams)] :=
  (aids_flag_iff_time_set scenarioParams).2.2 _ (by
    intro m hm
    rw [List.mem_singleton] at hm
    subst hm
    exact (aids_flag_iff_time_set scenarioParams).2.1 _ 0 _
      ((aids_flag_iff_time_set scenarioParams).1))
